import Mathlib

/-!
Shallow embedding of the MLOps-Production-Pipeline repository
(src/app/main.py, src/app/ml_model.py) and proofs about its
request-validation and prediction-response contract.

Machine floats are modelled as exact rationals with explicit non-finite
values (PyFloat).  Randomness (np.random.random) and the wall clock
(time.time) are passed in explicitly as parameters of the handler.
-/

/-- Model of a Python float value as carried in a JSON body: either a
finite rational or one of the non-finite IEEE values that json.loads
accepts (NaN, Infinity, -Infinity). -/
inductive PyFloat
  | finite (q : ℚ)
  | nan
  | inf
  | ninf
deriving DecidableEq, Repr

/-- Whether a PyFloat is a finite number. -/
def PyFloat.isFinite : PyFloat → Bool
  | .finite _ => true
  | _ => false

/-- Round a rational to the nearest integer, ties to even: the semantics
of round(x) on an exactly represented value in Python 3. -/
def rndHalfEven (x : ℚ) : ℤ :=
  if x - Int.floor x < 1/2 then Int.floor x
  else if 1/2 < x - Int.floor x then Int.floor x + 1
  else if Int.floor x % 2 = 0 then Int.floor x else Int.floor x + 1

/-- Model of round(x, ndigits) in Python: round to ndigits decimal
places, ties to even, over exact rationals. -/
def pyRound (ndigits : ℕ) (x : ℚ) : ℚ :=
  (rndHalfEven (x * 10 ^ ndigits) : ℚ) / 10 ^ ndigits

/-- JSON value, as far as the bodies of this service need. -/
inductive JVal
  | num (q : ℚ)
  | str (s : String)
  | bool (b : Bool)
  | obj (fields : List (String × JVal))

/-- Currently configured version string (main.py line 52). -/
def MODEL_VERSION : String := "v1.0.0"

/-- The features field of a POST /predict body, as parsed by json.loads:
either a JSON array of numbers or a JSON object mapping names to
numbers. -/
inductive FeaturesField
  | arr (xs : List PyFloat)
  | obj (kvs : List (String × PyFloat))
deriving DecidableEq, Repr

/-- Raw POST /predict body after JSON parsing, before pydantic
validation.  model_version is optional in the body (default "v1.0"). -/
structure RawBody where
  features : FeaturesField
  model_version : Option String
deriving DecidableEq, Repr

/-- Pydantic model PredictionRequest (main.py lines 35-37):
features is declared List[float]; model_version defaults to "v1.0". -/
structure PredictionRequest where
  features : List PyFloat
  model_version : String
deriving DecidableEq, Repr

/-- Pydantic model PredictionResponse (main.py lines 39-43). -/
structure PredictionResponse where
  prediction : ℚ
  probability : ℚ
  model_version : String
  inference_time_ms : ℚ
deriving DecidableEq, Repr

/-- FastAPI serialization of a PredictionResponse under
response_model=PredictionResponse: exactly the four declared fields, in
declaration order.  Fields absent from the model cannot appear in the
wire body. -/
def PredictionResponse.serialize (r : PredictionResponse) : List (String × JVal) :=
  [("prediction", .num r.prediction),
   ("probability", .num r.probability),
   ("model_version", .str r.model_version),
   ("inference_time_ms", .num r.inference_time_ms)]

/-- The keys of the serialized 200 body of POST /predict. -/
def PredictionResponse.serializeKeys (r : PredictionResponse) : List String :=
  (r.serialize).map Prod.fst

/-- Outcome of an HTTP request to this service. -/
inductive HttpResult
  | ok (resp : PredictionResponse)
  | clientError (status : ℕ) (detail : String)
  | serverError (status : ℕ) (detail : String)
deriving DecidableEq, Repr

/-- Whether a result is a 200 success. -/
def HttpResult.isOk : HttpResult → Bool
  | .ok _ => true
  | _ => false

/-- Python exception raised inside the handler body. -/
inductive PyExc
  | httpException (status : ℕ) (detail : String)
deriving DecidableEq, Repr

/-- String rendering of an exception, as interpolated into the detail
of the 500 response (str(e) on a starlette HTTPException). -/
def PyExc.message : PyExc → String
  | .httpException s d => toString s ++ ": " ++ d

/-- Pydantic v1 validation of the body against PredictionRequest.
features: List[float] accepts a JSON array (any float values, including
non-finite ones pass the float validator); a JSON object is not
sequence_like in pydantic v1, so it fails list validation, which FastAPI
surfaces as a 422 response. -/
def parseRequestBody (body : RawBody) : Except String PredictionRequest :=
  match body.features with
  | .obj _ => .error "value is not a valid list"
  | .arr xs => .ok { features := xs, model_version := body.model_version.getD "v1.0" }

/-- Body of the try block of the predict endpoint (main.py lines 93-115).
t0 is time.time() recorded at line 91, t1 is time.time() at line 106,
r1 and r2 are the two np.random.random() draws (lines 102-103).
The features array built at line 99 is never used afterwards. -/
def predictTryBody (request : PredictionRequest) (t0 t1 r1 r2 : ℚ) :
    Except PyExc PredictionResponse :=
  if request.features.isEmpty then
    .error (.httpException 400 "Features cannot be empty")
  else
    let prediction := r1
    let probability := r2
    let inference_time := (t1 - t0) * 1000
    .ok { prediction := pyRound 4 prediction,
          probability := pyRound 4 probability,
          model_version := MODEL_VERSION,
          inference_time_ms := pyRound 2 inference_time }

/-- The predict endpoint (main.py lines 88-119).  Any exception raised
in the try block, including the HTTPException(400) for empty features,
is caught by the blanket except at line 117 and re-raised as a 500. -/
def predict (request : PredictionRequest) (t0 t1 r1 r2 : ℚ) : HttpResult :=
  match predictTryBody request t0 t1 r1 r2 with
  | .ok resp => .ok resp
  | .error e => .serverError 500 ("Prediction failed: " ++ e.message)

/-- Full POST /predict pipeline: pydantic validation of the raw body,
then the endpoint function. -/
def postPredict (body : RawBody) (t0 t1 r1 r2 : ℚ) : HttpResult :=
  match parseRequestBody body with
  | .error d => .clientError 422 d
  | .ok req => predict req t0 t1 r1 r2

/-- The GET /model/info route (main.py lines 72-86): a static dict
returned with status 200; it does not consult the MLModel adapter. -/
def model_info : List (String × JVal) :=
  [("name", .str "customer-churn-model"),
   ("version", .str MODEL_VERSION),
   ("framework", .str "scikit-learn"),
   ("description", .str "Production ML model for customer churn prediction"),
   ("metrics", .obj
     [("accuracy", .num (85/100)),
      ("precision", .num (83/100)),
      ("recall", .num (81/100)),
      ("f1_score", .num (82/100))])]

/-- Top-level keys of the GET /model/info body. -/
def modelInfoKeys : List String := model_info.map Prod.fst

namespace MLModel

/-- Parameters of the synthetic training set built by
_create_dummy_model (ml_model.py line 36):
make_classification(n_samples=100, n_features=4, random_state=42). -/
structure TrainSpec where
  n_samples : ℕ
  n_features : ℕ
  random_state : ℕ
deriving DecidableEq, Repr

/-- A scikit-learn model object as held by the adapter: either the
fallback LogisticRegression fit on the synthetic dataset, or an object
deserialized from disk by joblib (identified by its type name and an
opaque tag). -/
inductive SkModel
  | logisticRegressionFit (data : TrainSpec)
  | deserialized (typeName : String) (tag : ℕ)
deriving DecidableEq, Repr

/-- _create_dummy_model (ml_model.py lines 31-39): LogisticRegression
fit on make_classification(n_samples=100, n_features=4,
random_state=42). -/
def _create_dummy_model : SkModel :=
  .logisticRegressionFit { n_samples := 100, n_features := 4, random_state := 42 }

/-- Environment seen by load_model at the configured path: the file is
absent, or joblib.load raises, or joblib.load returns a model. -/
inductive DiskState
  | absent
  | raisesOnLoad
  | holds (m : SkModel)
deriving DecidableEq, Repr

/-- load_model (ml_model.py lines 18-29): loads from disk when the path
exists and deserialization succeeds; on a missing file or an exception
it assigns the dummy model.  Returns the resulting self.model field. -/
def load_model (disk : DiskState) : Option SkModel :=
  match disk with
  | .holds m => some m
  | .absent => some _create_dummy_model
  | .raisesOnLoad => some _create_dummy_model

/-- Python type(self.model).__name__. -/
def modelTypeName : Option SkModel → String
  | none => "NoneType"
  | some (.logisticRegressionFit _) => "LogisticRegression"
  | some (.deserialized tn _) => tn

/-- State of an MLModel instance: the configured path and the held
model object (None before load). -/
structure State where
  model_path : String
  model : Option SkModel
deriving DecidableEq, Repr

/-- get_model_info (ml_model.py lines 60-66). -/
def get_model_info (s : State) : List (String × JVal) :=
  [("model_type", .str (modelTypeName s.model)),
   ("model_path", .str s.model_path),
   ("is_loaded", .bool s.model.isSome)]

/-- Python max() over a list: raises on an empty sequence. -/
def listMax : List ℚ → Option ℚ
  | [] => none
  | x :: xs => some (xs.foldl max x)

/-- Result dict of MLModel.predict (ml_model.py lines 51-55). -/
structure MLPrediction where
  prediction : ℤ
  probability : List ℚ
  confidence : ℚ
deriving DecidableEq, Repr

/-- Behaviour of a model object under predict / predict_proba on a
single row. -/
structure ModelFn where
  predictRow : List ℚ → ℤ
  predictProbaRow : List ℚ → List ℚ

/-- MLModel.predict (ml_model.py lines 41-58): flattens the feature
dict values into a row, queries the model, and reports confidence as
max of the probability vector; any exception is reclassified as a
ValueError. -/
def predict (m : ModelFn) (features : List (String × ℚ)) :
    Except String MLPrediction :=
  let feature_array := features.map Prod.snd
  let prediction := m.predictRow feature_array
  let probability := m.predictProbaRow feature_array
  match listMax probability with
  | none => .error "Failed to make prediction: max() arg is an empty sequence"
  | some c => .ok { prediction := prediction, probability := probability, confidence := c }

end MLModel

/-! Helper lemmas about the rounding model. -/

theorem rndHalfEven_intCast (n : ℤ) : rndHalfEven (n : ℚ) = n := by
  unfold rndHalfEven
  rw [Int.floor_intCast]
  simp

theorem pyRound_idempotent (d : ℕ) (x : ℚ) :
    pyRound d (pyRound d x) = pyRound d x := by
  unfold pyRound
  rw [div_mul_cancel₀ _ (by positivity : (10 : ℚ) ^ d ≠ 0), rndHalfEven_intCast]

theorem rndHalfEven_nonneg (x : ℚ) (h : 0 ≤ x) : 0 ≤ rndHalfEven x := by
  unfold rndHalfEven
  have hf : (0 : ℤ) ≤ Int.floor x := Int.floor_nonneg.mpr h
  split_ifs <;> omega

theorem pyRound_nonneg (d : ℕ) (x : ℚ) (h : 0 ≤ x) : 0 ≤ pyRound d x := by
  unfold pyRound
  apply div_nonneg _ (by positivity)
  exact_mod_cast rndHalfEven_nonneg _ (mul_nonneg h (by positivity))

/-- Claim C1: the claim says every valid POST /predict success body has a
confidence field equal to max of the probability vector.  Evaluating the
route at a valid four-feature request shows the 200 body carries exactly
the four fields of PredictionResponse and no confidence key; the
repository's own test asserts confidence is present. -/
theorem predict_response_has_no_confidence_field :
    postPredict ⟨.arr [.finite 1, .finite 2, .finite 3, .finite 4], none⟩ 0 0 (1/2) (1/4)
      = .ok ⟨1/2, 1/4, "v1.0.0", 0⟩ ∧
    PredictionResponse.serializeKeys ⟨1/2, 1/4, "v1.0.0", 0⟩
      = ["prediction", "probability", "model_version", "inference_time_ms"] ∧
    "confidence" ∉ PredictionResponse.serializeKeys ⟨1/2, 1/4, "v1.0.0", 0⟩ := by
  refine ⟨?_, by decide, by decide⟩
  simp [postPredict, parseRequestBody, predict, predictTryBody, MODEL_VERSION]
  norm_num [pyRound, rndHalfEven]

/-- Claim C2: the claim says an empty feature collection yields status
400 or 422 and never 200.  An empty JSON array passes pydantic, and the
HTTPException(400) raised at line 96 is swallowed by the blanket except
and re-raised as a 500; only the empty-object form is stopped earlier,
by pydantic, with a 422. -/
theorem predict_empty_features_gives_500 :
    postPredict ⟨.arr [], none⟩ 0 0 (1/2) (1/4)
      = .serverError 500 "Prediction failed: 400: Features cannot be empty" ∧
    postPredict ⟨.obj [], none⟩ 0 0 (1/2) (1/4)
      = .clientError 422 "value is not a valid list" := by
  refine ⟨by decide, by decide⟩

/-- Claim C3: the claim says the object form of the request body is
accepted with a 200.  The pydantic field is List[float], so an object
body fails validation with a 422; only the array form reaches the
handler and succeeds. -/
theorem predict_object_form_rejected :
    postPredict ⟨.obj [("feature1", .finite 1), ("feature2", .finite 2),
                       ("feature3", .finite 3), ("feature4", .finite 4)], none⟩
        0 0 (1/2) (1/4)
      = .clientError 422 "value is not a valid list" ∧
    (postPredict ⟨.arr [.finite 2, .finite 3, .finite 4, .finite 5], none⟩
        0 0 (1/2) (1/4)).isOk = true := by
  refine ⟨by decide, by decide⟩

/-- Claim C4, counterexample: a request whose only feature is NaN is not
rejected; the route returns a 200 success response. -/
theorem predict_nonfinite_counterexample :
    postPredict ⟨.arr [.nan], none⟩ 0 0 (1/2) (1/4)
      = .ok ⟨1/2, 1/4, "v1.0.0", 0⟩ := by
  simp [postPredict, parseRequestBody, predict, predictTryBody, MODEL_VERSION]
  norm_num [pyRound, rndHalfEven]

/-- Claim C4, amended: the handler performs no finiteness validation:
every array-form request containing a non-finite feature value (hence
non-empty) returns a 200 success response. -/
theorem predict_accepts_nonfinite (f : List PyFloat) (mv : Option String)
    (t0 t1 r1 r2 : ℚ) (x : PyFloat) (hx : x ∈ f) (hnf : x.isFinite = false) :
    ∃ resp, postPredict ⟨.arr f, mv⟩ t0 t1 r1 r2 = .ok resp := by
  have hf : f.isEmpty = false := by
    cases f
    · simp at hx
    · simp
  refine ⟨⟨pyRound 4 r1, pyRound 4 r2, MODEL_VERSION, pyRound 2 ((t1 - t0) * 1000)⟩, ?_⟩
  simp [postPredict, parseRequestBody, predict, predictTryBody, hf]

theorem predict_accepts_nonfinite_witness :
    PyFloat.nan ∈ [PyFloat.nan] ∧ PyFloat.nan.isFinite = false ∧
    ∃ resp, postPredict ⟨.arr [.nan], none⟩ 0 0 (1/2) (1/4) = .ok resp :=
  ⟨by decide, by decide,
   predict_accepts_nonfinite [.nan] none 0 0 (1/2) (1/4) .nan (by decide) (by decide)⟩

/-- Claim C5: the claim says GET /model/info returns a body with keys
model_type, model_path and is_loaded.  The route returns a static dict
with keys name, version, framework, description, metrics, lacking all
three; the keys live only on MLModel.get_model_info, which the route
never calls, and there is_loaded is indeed true after a fallback load. -/
theorem model_info_missing_contract_keys :
    modelInfoKeys = ["name", "version", "framework", "description", "metrics"] ∧
    "model_type" ∉ modelInfoKeys ∧
    "model_path" ∉ modelInfoKeys ∧
    "is_loaded" ∉ modelInfoKeys ∧
    MLModel.get_model_info ⟨"models/model.pkl", MLModel.load_model .absent⟩
      = [("model_type", .str "LogisticRegression"),
         ("model_path", .str "models/model.pkl"),
         ("is_loaded", .bool true)] := by
  refine ⟨by decide, by decide, by decide, by decide, rfl⟩

/-- Claim C6: with the same random draws and the same clock readings,
the response of the predict endpoint is identical for any two non-empty
feature lists and any request model_version values: the feature values
never reach any model. -/
theorem predict_ignores_feature_values (f g : List PyFloat) (mv1 mv2 : String)
    (t0 t1 r1 r2 : ℚ) (hf : f ≠ []) (hg : g ≠ []) :
    predict ⟨f, mv1⟩ t0 t1 r1 r2 = predict ⟨g, mv2⟩ t0 t1 r1 r2 := by
  have hf' : f.isEmpty = false := by simp [hf]
  have hg' : g.isEmpty = false := by simp [hg]
  simp [predict, predictTryBody, hf', hg']

theorem predict_ignores_feature_values_witness :
    [PyFloat.finite 1] ≠ [] ∧ [PyFloat.finite 2, PyFloat.finite 3] ≠ [] ∧
    predict ⟨[.finite 1], "v1.0"⟩ 0 1 (1/2) (1/4)
      = predict ⟨[.finite 2, .finite 3], "other"⟩ 0 1 (1/2) (1/4) :=
  ⟨by decide, by decide,
   predict_ignores_feature_values [.finite 1] [.finite 2, .finite 3]
     "v1.0" "other" 0 1 (1/2) (1/4) (by decide) (by decide)⟩

/-- Claim C7: load_model always leaves a model in place: the adapter
field is some model for every disk state, and on a missing file or a
load failure it is the dummy LogisticRegression fit on the synthetic
100-sample, 4-feature, seed-42 dataset. -/
theorem load_model_never_none (disk : MLModel.DiskState) :
    (MLModel.load_model disk).isSome = true ∧
    MLModel.load_model .absent = some MLModel._create_dummy_model ∧
    MLModel.load_model .raisesOnLoad = some MLModel._create_dummy_model ∧
    MLModel._create_dummy_model
      = .logisticRegressionFit { n_samples := 100, n_features := 4, random_state := 42 } := by
  refine ⟨?_, rfl, rfl, rfl⟩
  cases disk <;> rfl

/-- Claim C8: every 200 response of the predict endpoint carries
prediction and probability rounded to 4 decimal places and
inference_time_ms rounded to 2, and re-applying the same rounding to
each returned value leaves it unchanged. -/
theorem predict_rounding_idempotent (req : PredictionRequest) (t0 t1 r1 r2 : ℚ)
    (resp : PredictionResponse) (h : predict req t0 t1 r1 r2 = .ok resp) :
    resp.prediction = pyRound 4 r1 ∧ resp.probability = pyRound 4 r2 ∧
    resp.inference_time_ms = pyRound 2 ((t1 - t0) * 1000) ∧
    pyRound 4 resp.prediction = resp.prediction ∧
    pyRound 4 resp.probability = resp.probability ∧
    pyRound 2 resp.inference_time_ms = resp.inference_time_ms := by
  unfold predict predictTryBody at h
  by_cases he : req.features.isEmpty <;> simp [he] at h
  subst h
  exact ⟨rfl, rfl, rfl, pyRound_idempotent 4 r1, pyRound_idempotent 4 r2,
         pyRound_idempotent 2 ((t1 - t0) * 1000)⟩

theorem predict_rounding_idempotent_witness :
    predict ⟨[PyFloat.finite 1], "v1.0"⟩ 0 1 (1/2) (1/4)
      = .ok ⟨1/2, 1/4, "v1.0.0", 1000⟩ ∧
    ((1:ℚ)/2 = pyRound 4 (1/2) ∧ (1:ℚ)/4 = pyRound 4 (1/4) ∧
     (1000:ℚ) = pyRound 2 ((1 - 0) * 1000) ∧
     pyRound 4 ((1:ℚ)/2) = 1/2 ∧ pyRound 4 ((1:ℚ)/4) = 1/4 ∧
     pyRound 2 (1000:ℚ) = 1000) :=
  ⟨by simp [predict, predictTryBody, MODEL_VERSION]; norm_num [pyRound, rndHalfEven],
   predict_rounding_idempotent ⟨[.finite 1], "v1.0"⟩ 0 1 (1/2) (1/4)
     ⟨1/2, 1/4, "v1.0.0", 1000⟩
     (by simp [predict, predictTryBody, MODEL_VERSION]; norm_num [pyRound, rndHalfEven])⟩

/-- Claim C9: every 200 response of the predict endpoint reports
model_version "v1.0.0", the configured MODEL_VERSION, and replacing the
model_version sent in the request changes nothing in the response. -/
theorem predict_model_version_fixed (req : PredictionRequest) (v : String)
    (t0 t1 r1 r2 : ℚ) (resp : PredictionResponse)
    (h : predict req t0 t1 r1 r2 = .ok resp) :
    resp.model_version = "v1.0.0" ∧
    predict { req with model_version := v } t0 t1 r1 r2 = .ok resp := by
  unfold predict predictTryBody at h ⊢
  by_cases he : req.features.isEmpty <;> simp [he] at h ⊢
  subst h
  exact ⟨rfl, rfl⟩

theorem predict_model_version_fixed_witness :
    predict ⟨[PyFloat.finite 1], "v9"⟩ 0 1 (1/2) (1/4)
      = .ok ⟨1/2, 1/4, "v1.0.0", 1000⟩ ∧
    (("v1.0.0" : String) = "v1.0.0" ∧
     predict ⟨[PyFloat.finite 1], "other"⟩ 0 1 (1/2) (1/4)
       = .ok ⟨1/2, 1/4, "v1.0.0", 1000⟩) :=
  ⟨by simp [predict, predictTryBody, MODEL_VERSION]; norm_num [pyRound, rndHalfEven],
   predict_model_version_fixed ⟨[.finite 1], "v9"⟩ "other" 0 1 (1/2) (1/4)
     ⟨1/2, 1/4, "v1.0.0", 1000⟩
     (by simp [predict, predictTryBody, MODEL_VERSION]; norm_num [pyRound, rndHalfEven])⟩

/-- Claim C10: under a monotone clock (the second time.time() reading is
at least the first), every 200 response of the predict endpoint reports
inference_time_ms equal to the rounded elapsed milliseconds between the
start timestamp taken at handler entry and the reading taken after the
prediction values are computed, and that value is non-negative. -/
theorem predict_latency_nonneg (req : PredictionRequest) (t0 t1 r1 r2 : ℚ)
    (resp : PredictionResponse) (hclock : t0 ≤ t1)
    (h : predict req t0 t1 r1 r2 = .ok resp) :
    resp.inference_time_ms = pyRound 2 ((t1 - t0) * 1000) ∧
    0 ≤ resp.inference_time_ms := by
  unfold predict predictTryBody at h
  by_cases he : req.features.isEmpty <;> simp [he] at h
  subst h
  refine ⟨rfl, pyRound_nonneg 2 _ ?_⟩
  have : (0:ℚ) ≤ t1 - t0 := sub_nonneg.mpr hclock
  positivity

theorem predict_latency_nonneg_witness :
    (0:ℚ) ≤ 1 ∧
    predict ⟨[PyFloat.finite 1], "v1.0"⟩ 0 1 (1/2) (1/4)
      = .ok ⟨1/2, 1/4, "v1.0.0", 1000⟩ ∧
    ((1000:ℚ) = pyRound 2 ((1 - 0) * 1000) ∧ (0:ℚ) ≤ 1000) :=
  ⟨by norm_num,
   by simp [predict, predictTryBody, MODEL_VERSION]; norm_num [pyRound, rndHalfEven],
   predict_latency_nonneg ⟨[.finite 1], "v1.0"⟩ 0 1 (1/2) (1/4)
     ⟨1/2, 1/4, "v1.0.0", 1000⟩ (by norm_num)
     (by simp [predict, predictTryBody, MODEL_VERSION]; norm_num [pyRound, rndHalfEven])⟩
